import Mathlib

/-! Module overview.
Verification development for the FinMind repository.

The core of the repository, per its specification, is the budget-suggestion
engine reached through `GET /insights/budget-suggestion`.  The engine
itself is not part of the visible sources (only its frontend consumers
are), so the engine is modelled here from the specification text; the
frontend API clients, the currency formatter and the reminders page
logic are embedded directly from the TypeScript sources.

Conventions: decimal amounts are rationals; calendar months are absolute
month indices (year * 12 + monthOfYear), as integers so that windows
never truncate.
-/

namespace FinMind

/-- A stored expense record, `src/unnamed/part_007` table `expenses`:
`amount NUMERIC(12,2)`, optional `category_id`, `spent_at` reduced to its
calendar month index. -/
structure ExpenseRecord where
  monthIdx : Int
  categoryId : Option Nat
  amount : ℚ
deriving Repr, DecidableEq

/-- Engine configuration: the configured default used when no data exists
at all (spec section 4.1 step 5). -/
structure EngineConfig where
  defaultTotal : ℚ
deriving Repr, DecidableEq

inductive TrendDirection
  | increasing
  | decreasing
  | stable
deriving Repr, DecidableEq

structure SpendingTrend where
  direction : TrendDirection
  change_pct : ℚ
deriving Repr, DecidableEq

inductive ConfidenceLabel
  | no_data
  | low
  | medium
  | high
  | very_high
deriving Repr, DecidableEq

structure ConfidenceScore where
  score : ℚ
  label : ConfidenceLabel
  months_analyzed : Nat
deriving Repr, DecidableEq

structure DataRange where
  months_requested : Nat
  months_with_data : Nat
  oldest_month : Option Int
  newest_month : Option Int
deriving Repr, DecidableEq

structure Breakdown where
  needs : ℚ
  wants : ℚ
  savings : ℚ
deriving Repr, DecidableEq

structure CategorySuggestion where
  category_id : Option Nat
  suggested_limit : ℚ
  average_spending : ℚ
  trend_pct : ℚ
  trend_direction : TrendDirection
  months_with_data : Nat
deriving Repr, DecidableEq

/-- `method: enum{heuristic, heuristic_default, openai, gemini}`
(spec section 3). -/
inductive Method
  | heuristic
  | heuristic_default
  | openai
  | gemini
deriving Repr, DecidableEq

inductive LLMProvider
  | openai
  | gemini
deriving Repr, DecidableEq

/-- Result of a successful `generateTips` call (spec section 6). -/
structure TipResult where
  tips : List String
  warnings : List String
deriving Repr, DecidableEq

/-- The aggregate response shape of spec section 3. -/
structure BudgetSuggestion where
  month : Int
  suggested_total : ℚ
  breakdown : Breakdown
  confidence : ConfidenceScore
  spending_trend : Option SpendingTrend
  category_suggestions : List CategorySuggestion
  data_range : DataRange
  monthly_totals : List (Int × ℚ)
  method : Method
  tips : Option (List String)
  warnings : Option (List String)
deriving Repr, DecidableEq

inductive EngineError
  | invalidRange
deriving Repr, DecidableEq

/-- Modelled from the spec: the lookback window of section 4.1 step 1.
The spec scenario in section 8 (months `2026-01`, `2026-02` for
`month=2026-02, months=2`) shows the window is the `lookback` calendar
months ending at and including the target month; listed newest first. -/
def windowMonths (month : Int) (lookback : Nat) : List Int :=
  (List.range lookback).map (fun (i : Nat) => month - (i : Int))

/-- Records landing in one calendar month. -/
def monthRecords (recs : List ExpenseRecord) (m : Int) : List ExpenseRecord :=
  recs.filter (fun r => r.monthIdx = m)

/-- Total spending of one calendar month (spec section 4.1 step 2). -/
def monthTotal (recs : List ExpenseRecord) (m : Int) : ℚ :=
  ((monthRecords recs m).map (fun r => r.amount)).sum

/-- Records whose month falls inside the lookback window. -/
def windowRecords (month : Int) (lookback : Nat) (recs : List ExpenseRecord) :
    List ExpenseRecord :=
  recs.filter (fun r => month - lookback < r.monthIdx && r.monthIdx ≤ month)

/-- Months of a window that actually contain at least one record, newest
first (spec section 4.1 steps 2 and 3: empty months are absent, not
zero). -/
def monthsWithData (months : List Int) (recs : List ExpenseRecord) : List Int :=
  months.filter (fun m => !(monthRecords recs m).isEmpty)

/-- Modelled from the spec: the window months with data, as used by the
engine (section 4.1 steps 2 to 8). -/
def engineMonths (month : Int) (lookback : Nat) (recs : List ExpenseRecord) :
    List Int :=
  monthsWithData (windowMonths month lookback) (windowRecords month lookback recs)

/-- Modelled from the spec: confidence score of section 4.1 step 4, a
policy choice (section 9) that is zero on no data, lies in `[0,1]` and
increases monotonically with the coverage fraction
`withData / requested` and with the windowed record count. -/
def confidenceScore (withData requested count : Nat) : ℚ :=
  ((withData : ℚ) / (requested : ℚ)) * ((count : ℚ) / ((count : ℚ) + 1))

/-- Modelled from the spec: label thresholds of section 4.1 step 4
(0 months gives no_data, 1 month gives low, partial coverage gives
medium, full coverage with at least 3 requested months gives high, with
at least 6 gives very_high). -/
def confidenceLabel (withData requested : Nat) : ConfidenceLabel :=
  if withData = 0 then .no_data
  else if withData = 1 then .low
  else if withData < requested then .medium
  else if 6 ≤ requested then .very_high
  else if 3 ≤ requested then .high
  else .medium

/-- Direction thresholds of spec section 4.1 step 7: stable when the
absolute change is below 5 percent, else by sign. -/
def trendDirection (change : ℚ) : TrendDirection :=
  if |change| < 5 then .stable
  else if 0 < change then .increasing
  else .decreasing

/-- Modelled from the spec: spending trend of section 4.1 step 7 — the
most recent month with data against the prior month with data; absent
when fewer than 2 months have data or the prior total is not positive. -/
def spendingTrendOf (month : Int) (lookback : Nat) (recs : List ExpenseRecord) :
    Option SpendingTrend :=
  let wrecs := windowRecords month lookback recs
  match engineMonths month lookback recs with
  | recent :: prior :: _ =>
    let priorTotal := monthTotal wrecs prior
    if 0 < priorTotal then
      let change := (monthTotal wrecs recent - priorTotal) / priorTotal * 100
      some ⟨trendDirection change, change⟩
    else none
  | _ => none

/-- Distinct category ids observed in a record list, in order of first
appearance. -/
def categoryIds (recs : List ExpenseRecord) : List (Option Nat) :=
  (recs.map (fun r => r.categoryId)).dedup

/-- Modelled from the spec: per-category figures of section 4.1 step 8 —
mean over months with data for the category, a category-scoped trend,
and a recency-smoothed suggested limit (the smoothing factor is a policy
choice per section 9: the mean averaged with the latest month). -/
def categorySuggestionFor (month : Int) (lookback : Nat)
    (wrecs : List ExpenseRecord) (cid : Option Nat) : CategorySuggestion :=
  let catRecs := wrecs.filter (fun r => r.categoryId = cid)
  let ms := monthsWithData (windowMonths month lookback) catRecs
  let avg : ℚ := if ms.isEmpty then 0 else (ms.map (monthTotal catRecs)).sum / ms.length
  let recent : ℚ := match ms with
    | m :: _ => monthTotal catRecs m
    | [] => 0
  let trend : ℚ × TrendDirection := match ms with
    | _ :: prior :: _ =>
      let priorTotal := monthTotal catRecs prior
      if 0 < priorTotal then
        let c := (recent - priorTotal) / priorTotal * 100
        (c, trendDirection c)
      else (0, .stable)
    | _ => (0, .stable)
  { category_id := cid
    suggested_limit := (avg + recent) / 2
    average_spending := avg
    trend_pct := trend.1
    trend_direction := trend.2
    months_with_data := ms.length }

def providerMethod : LLMProvider → Method
  | .openai => .openai
  | .gemini => .gemini

/-- Modelled from the spec: `monthly_totals` of section 4.1 step 2, a
per-month sum over the months with data, newest first. -/
def monthlyTotals (month : Int) (lookback : Nat) (recs : List ExpenseRecord) :
    List (Int × ℚ) :=
  (engineMonths month lookback recs).map
    (fun m => (m, monthTotal (windowRecords month lookback recs) m))

/-- Modelled from the spec: `suggested_total` of section 4.1 step 5, the
average of the monthly totals over months with data, or the configured
default when no data exists at all. -/
def suggestedTotal (cfg : EngineConfig) (month : Int) (lookback : Nat)
    (recs : List ExpenseRecord) : ℚ :=
  if (engineMonths month lookback recs).isEmpty then cfg.defaultTotal
  else
    ((monthlyTotals month lookback recs).map Prod.snd).sum /
      ((monthlyTotals month lookback recs).length : ℚ)

/-- Modelled from the spec: the fixed 50/30/20 needs/wants/savings split
of section 4.1 step 6. -/
def splitBreakdown (total : ℚ) : Breakdown :=
  ⟨total / 2, total * 3 / 10, total / 5⟩

/-- Method tag per spec section 4.1 step 9: the provider name on a
successful tip call, otherwise heuristic, with heuristic_default
whenever the no-data fallback was used. -/
def methodOf (noData : Bool) (llm : Option (LLMProvider × Option TipResult)) :
    Method :=
  match llm with
  | some (p, some _) => if noData then .heuristic_default else providerMethod p
  | _ => if noData then .heuristic_default else .heuristic

/-- Tips attached per spec section 4.1 step 9; absent unless the call
succeeded and there is data to condition on. -/
def tipsOf (noData : Bool) (llm : Option (LLMProvider × Option TipResult)) :
    Option (List String) :=
  match llm with
  | some (_, some r) => if noData then none else some r.tips
  | _ => none

def warningsOf (noData : Bool) (llm : Option (LLMProvider × Option TipResult)) :
    Option (List String) :=
  match llm with
  | some (_, some r) => if noData then none else some r.warnings
  | _ => none

/-- Modelled from the spec: the successful-path response of the
BudgetSuggestionEngine, section 4.1 steps 1 to 9. -/
def buildSuggestion (cfg : EngineConfig) (month : Int) (lookback : Nat)
    (records : List ExpenseRecord)
    (llm : Option (LLMProvider × Option TipResult)) : BudgetSuggestion :=
  { month := month
    suggested_total := suggestedTotal cfg month lookback records
    breakdown := splitBreakdown (suggestedTotal cfg month lookback records)
    confidence :=
      ⟨confidenceScore (engineMonths month lookback records).length lookback
          (windowRecords month lookback records).length,
       confidenceLabel (engineMonths month lookback records).length lookback,
       (engineMonths month lookback records).length⟩
    spending_trend := spendingTrendOf month lookback records
    category_suggestions :=
      (categoryIds (windowRecords month lookback records)).map
        (categorySuggestionFor month lookback (windowRecords month lookback records))
    data_range :=
      ⟨lookback, (engineMonths month lookback records).length,
       (engineMonths month lookback records).getLast?,
       (engineMonths month lookback records).head?⟩
    monthly_totals := monthlyTotals month lookback records
    method := methodOf (engineMonths month lookback records).isEmpty llm
    tips := tipsOf (engineMonths month lookback records).isEmpty llm
    warnings := warningsOf (engineMonths month lookback records).isEmpty llm }

/-- Modelled from the spec: the BudgetSuggestionEngine of section 4.1.
The engine itself is absent from the visible sources (only the frontend
consumers are), so each step follows the numbered algorithm of the spec.
`llm` models the optional tip collaborator of section 6: `none` when no
key is supplied, `some (p, none)` when a key for provider `p` is
supplied but the call fails, `some (p, some r)` on success.  Tips are
generated only when some data exists, since section 4.1 step 9
conditions them on the computed breakdown; failures are swallowed
(section 7).  A non-positive lookback is the InvalidRangeError of
section 4.1. -/
def computeSuggestion (cfg : EngineConfig) (month : Int) (lookback : Nat)
    (records : List ExpenseRecord)
    (llm : Option (LLMProvider × Option TipResult)) :
    Except EngineError BudgetSuggestion :=
  if lookback = 0 then .error .invalidRange
  else .ok (buildSuggestion cfg month lookback records llm)

/-! Frontend API clients (from the TypeScript sources) -/

/-- An HTTP request as assembled by the frontend API helpers: path,
query parameters in insertion order, extra headers. -/
structure ApiRequest where
  path : String
  query : List (String × String)
  headers : List (String × String)
deriving Repr, DecidableEq

/-- JavaScript string truthiness: only the empty string is falsy. -/
def strTruthy (s : String) : Bool := !(s = "")

/-- A truthiness-guarded key/value pair, the common shape of
`if (x) params.set(key, x)` and `if (x) headers[key] = x` in the two
clients. -/
def optParam (key : String) (o : Option String) : List (String × String) :=
  match o with
  | some s => if strTruthy s then [(key, s)] else []
  | none => []

/-- The months parameter of the insights client: `if (months)
params.set(months key, String(months))`; the JS number 0 is falsy. -/
def optNatParam (key : String) (o : Option Nat) : List (String × String) :=
  match o with
  | some n => if n ≠ 0 then [(key, toString n)] else []
  | none => []

/-- `getBudgetSuggestion` of the insights client (`src/unnamed/part_004`):
`if (month) set the month query value; if (months) set the months query
value via String(months)` on path `/insights/budget-suggestion`. -/
def insightsGetBudgetSuggestion (month : Option String) (months : Option Nat) :
    ApiRequest :=
  { path := "/insights/budget-suggestion"
    query := optParam "month" month ++ optNatParam "months" months
    headers := [] }

/-- `getBudgetSuggestion` of the analytics client (`src/unnamed/part_005`):
`?month=` appended when `params?.month` is truthy, and the two optional
headers set when their values are truthy. -/
def analyticsGetBudgetSuggestion (month geminiApiKey persona : Option String) :
    ApiRequest :=
  { path := "/insights/budget-suggestion"
    query := optParam "month" month
    headers :=
      optParam "X-Gemini-Api-Key" geminiApiKey ++
        optParam "X-Insight-Persona" persona }

/-- The `method` union of the insights client type
(`src/unnamed/part_004`): `heuristic | heuristic_default | openai`. -/
def insightsMethodValues : List String :=
  ["heuristic", "heuristic_default", "openai"]

/-- Whether the insights client `BudgetSuggestion.method` type accepts a
string. -/
def insightsMethodAccepts (s : String) : Bool :=
  insightsMethodValues.contains s

/-- Whether the analytics client `BudgetSuggestion.method` type
(`src/unnamed/part_005`) accepts a string: the union
`gemini | heuristic | string` is absorbed by `string`, so every string
is accepted. -/
def analyticsMethodAccepts (_ : String) : Bool := true

/-- The four spec method values (spec section 3). -/
def specMethodValues : List String :=
  ["heuristic", "heuristic_default", "openai", "gemini"]

/-- The JSON tag of an engine method value. -/
def methodString : Method → String
  | .heuristic => "heuristic"
  | .heuristic_default => "heuristic_default"
  | .openai => "openai"
  | .gemini => "gemini"

/-! JavaScript numbers and `Number(string)` coercion

Used by `formatMoney` (`src/app/src/lib/currency.ts`) and by the
offsets parsing of the reminders page (`src/unnamed/part_003`).  A JS
number is modelled as NaN, an infinity, or an exact rational; float
rounding is not modelled. -/

inductive JSNum
  | nan
  | posInf
  | negInf
  | num (q : ℚ)
deriving Repr, DecidableEq

/-- The character list of a string with leading and trailing whitespace
removed, as JS `trim()` does (ASCII whitespace modelled). -/
def jsTrimData (s : String) : List Char :=
  ((s.data.dropWhile Char.isWhitespace).reverse.dropWhile Char.isWhitespace).reverse

/-- JS `String.prototype.trim`. -/
def jsStrTrim (s : String) : String :=
  ⟨jsTrimData s⟩

/-- JS `String.prototype.toUpperCase` (ASCII case mapping modelled). -/
def jsToUpperStr (s : String) : String :=
  ⟨s.data.map Char.toUpper⟩

/-- JS number truthiness: NaN and zero are falsy. -/
def jsNumTruthy : JSNum → Bool
  | .nan => false
  | .num q => !(q = 0)
  | _ => true

/-- The JS expression `a || 0` on a number. -/
def jsOrZero (a : JSNum) : JSNum :=
  if jsNumTruthy a then a else .num 0

def decDigitsVal (cs : List Char) : Nat :=
  cs.foldl (fun a c => 10 * a + (c.toNat - '0'.toNat)) 0

def hexDigitVal (c : Char) : Nat :=
  if c.isDigit then c.toNat - '0'.toNat
  else if 'a' ≤ c ∧ c ≤ 'f' then c.toNat - 'a'.toNat + 10
  else c.toNat - 'A'.toNat + 10

def isRadixDigit (b : Nat) (c : Char) : Bool :=
  (c.isDigit || ('a' ≤ c && c ≤ 'f') || ('A' ≤ c && c ≤ 'F')) &&
    hexDigitVal c < b

def radixVal (b : Nat) (cs : List Char) : Nat :=
  cs.foldl (fun a c => b * a + hexDigitVal c) 0

/-- Decimal numeric literal: digits with an optional fraction part and
an optional exponent, as accepted by JS `Number`. -/
def parseDecimal (cs : List Char) : Option ℚ :=
  let ipSplit := cs.span Char.isDigit
  let fracSplit :=
    match ipSplit.2 with
    | '.' :: rest => rest.span Char.isDigit
    | _ => ([], ipSplit.2)
  if ipSplit.1.isEmpty && fracSplit.1.isEmpty then none
  else
    let mant : ℚ :=
      if fracSplit.1.isEmpty then (decDigitsVal ipSplit.1 : ℚ)
      else
        (decDigitsVal ipSplit.1 : ℚ) +
          (decDigitsVal fracSplit.1 : ℚ) / (10 : ℚ) ^ fracSplit.1.length
    match fracSplit.2 with
    | [] => some mant
    | e :: rest =>
      if e = 'e' || e = 'E' then
        let expSplit : Bool × List Char :=
          match rest with
          | '+' :: ds => (true, ds)
          | '-' :: ds => (false, ds)
          | ds => (true, ds)
        if expSplit.2.isEmpty || !(expSplit.2.all Char.isDigit) then none
        else if expSplit.1 then
          some (mant * (10 : ℚ) ^ decDigitsVal expSplit.2)
        else
          some (mant / (10 : ℚ) ^ decDigitsVal expSplit.2)
      else none

/-- A radix-prefixed literal body (after `0x`, `0o` or `0b`): JS accepts
only bare digit runs, with no sign. -/
def radixNum (b : Nat) (cs : List Char) : JSNum :=
  if !cs.isEmpty && cs.all (isRadixDigit b) then .num (radixVal b cs : ℚ)
  else .nan

/-- JS `Number(string)`: trims whitespace, maps the empty string to 0,
accepts signed decimal literals, `Infinity`, and unsigned radix
literals; everything else is NaN.  Values are exact rationals (float
overflow to Infinity is not modelled). -/
def jsNumber (s : String) : JSNum :=
  match jsTrimData s with
  | [] => .num 0
  | '+' :: rest =>
    if rest = "Infinity".data then .posInf
    else match parseDecimal rest with
      | some q => .num q
      | none => .nan
  | '-' :: rest =>
    if rest = "Infinity".data then .negInf
    else match parseDecimal rest with
      | some q => .num (-q)
      | none => .nan
  | '0' :: x :: rest =>
    if x = 'x' || x = 'X' then radixNum 16 rest
    else if x = 'o' || x = 'O' then radixNum 8 rest
    else if x = 'b' || x = 'B' then radixNum 2 rest
    else match parseDecimal ('0' :: x :: rest) with
      | some q => .num q
      | none => .nan
  | cs =>
    if cs = "Infinity".data then .posInf
    else match parseDecimal cs with
      | some q => .num q
      | none => .nan

/-! Currency formatting (`src/app/src/lib/currency.ts`) -/

/-- Two-digit zero-padded decimal rendering of a value below 100. -/
def twoDigits (n : Nat) : String :=
  (if n < 10 then "0" else "") ++ toString n

/-- JS `Number.prototype.toFixed(2)`: round to two decimals (ties are a
float artefact; modelled as round-half-up on the exact rational) and
render with exactly two fraction digits; infinities render as in JS. -/
def jsToFixed2 : JSNum → String
  | .nan => "NaN"
  | .posInf => "Infinity"
  | .negInf => "-Infinity"
  | .num q =>
    let c : ℤ := round (q * 100)
    let sgn := if c < 0 then "-" else ""
    let a := c.natAbs
    sgn ++ toString (a / 100) ++ "." ++ twoDigits (a % 100)

/-- The JS expression `a || d` on an optional string (`null` and the
empty string fall through). -/
def strOr (a : Option String) (d : String) : String :=
  match a with
  | some s => if strTruthy s then s else d
  | none => d

/-- The browser environment seen by `formatMoney`: the cached currency
from `getCurrency()`, which currency codes `Intl.NumberFormat` accepts
(it throws a RangeError on the rest), and the locale-dependent output
it produces on the ones it accepts. -/
structure IntlEnv where
  storedCurrency : Option String
  validCurrency : String → Bool
  intlFormat : String → JSNum → String

/-- The resolved code `(currencyCode || getCurrency() || the USD literal)
.toUpperCase()` of `formatMoney`. -/
def resolveCurrency (env : IntlEnv) (currencyCode : Option String) : String :=
  jsToUpperStr (strOr currencyCode (strOr env.storedCurrency "USD"))

/-- `formatMoney` of `src/app/src/lib/currency.ts`: format
`Number(amount || 0)` with `Intl.NumberFormat` under the resolved
currency code; when the constructor throws (invalid code), fall back to
the plain string `CODE + space + amount.toFixed(2)`. -/
def formatMoney (env : IntlEnv) (amount : JSNum) (currencyCode : Option String) :
    String :=
  let currency := resolveCurrency env currencyCode
  let amt := jsOrZero amount
  if env.validCurrency currency then env.intlFormat currency amt
  else currency ++ " " ++ jsToFixed2 amt

/-! Bill-reminder offsets (`src/unnamed/part_003`, `src/unnamed/part_004`) -/

/-- The comma-split tokens of the offsets input field, as JS
`input.split(',')` produces them (the empty input yields one empty
token). -/
def offsetTokens (input : String) : List String :=
  (List.splitOnP (fun c => c = ',') input.data).map (fun cs => ⟨cs⟩)

/-- `onScheduleBillReminders` parsing (`src/unnamed/part_003` lines 93
to 96): `split(',').map(x => Number(x.trim())).filter(x =>
Number.isFinite(x) && x >= 0)`. -/
def parseOffsets (input : String) : List ℚ :=
  ((offsetTokens input).map (fun x => jsNumber (jsStrTrim x))).filterMap
    (fun v =>
      match v with
      | .num q => if 0 ≤ q then some q else none
      | _ => none)

/-- The second argument the page passes to `scheduleBillReminders`
(`src/unnamed/part_003` lines 97 to 100): the parsed list when
non-empty, else `undefined`. -/
def sentOffsetsArg (input : String) : Option (List ℚ) :=
  let l := parseOffsets input
  if l.length > 0 then some l else none

/-- The `offsets_days` field of the request body built by
`scheduleBillReminders` (`src/unnamed/part_004` lines 39 to 47): present
exactly when the argument is a non-empty list, else the body is `{}`. -/
def scheduleBody (offsetsDays : Option (List ℚ)) : Option (List ℚ) :=
  match offsetsDays with
  | some l => if l.length > 0 then some l else none
  | none => none

/-- The `offsets_days` body field actually sent for a given input
string. -/
def sentBody (input : String) : Option (List ℚ) :=
  scheduleBody (sentOffsetsArg input)

/-- The offsets the claim describes: only tokens that are themselves
finite non-negative numbers are kept, so a token that is not a number
at all (such as an empty token) contributes nothing.  Written from the
claim wording, to be compared with `parseOffsets`. -/
def claimedOffsets (input : String) : List ℚ :=
  (offsetTokens input).filterMap
    (fun x =>
      if jsStrTrim x = "" then none
      else
        match jsNumber (jsStrTrim x) with
        | .num q => if 0 ≤ q then some q else none
        | _ => none)

/-- Shared concrete engine configuration used by witnesses. -/
def cfgEx : EngineConfig := ⟨1000⟩

/-- The spec section 8 scenario dataset: totals 1000 in month 24312
(2026-01) and 1200 in month 24313 (2026-02). -/
def recsEx : List ExpenseRecord := [⟨24312, none, 1000⟩, ⟨24313, none, 1200⟩]

/-- A concrete formatter environment for the witness: a cached lowercase
store currency and a formatter that accepts nothing. -/
def envEx : IntlEnv := ⟨some "inr", fun _ => false, fun _ _ => ""⟩

/-! Shared lemmas -/

theorem computeSuggestion_ok {cfg : EngineConfig} {month : Int} {lookback : Nat}
    {records : List ExpenseRecord} {llm : Option (LLMProvider × Option TipResult)}
    {b : BudgetSuggestion}
    (h : computeSuggestion cfg month lookback records llm = .ok b) :
    lookback ≠ 0 ∧ b = buildSuggestion cfg month lookback records llm := by
  by_cases hl : lookback = 0
  · rw [computeSuggestion, if_pos hl] at h
    exact absurd h (by simp)
  · rw [computeSuggestion, if_neg hl] at h
    cases h
    exact ⟨hl, rfl⟩

theorem monthsWithData_nil (months : List Int) : monthsWithData months [] = [] := by
  simp [monthsWithData, monthRecords]

theorem engineMonths_length_le (month : Int) (lookback : Nat)
    (records : List ExpenseRecord) :
    (engineMonths month lookback records).length ≤ lookback := by
  calc (engineMonths month lookback records).length
      ≤ (windowMonths month lookback).length := List.length_filter_le _ _
    _ = lookback := by rw [windowMonths, List.length_map, List.length_range]

theorem monthRecords_filter (recs : List ExpenseRecord) (p : ExpenseRecord → Bool)
    (m : Int) : monthRecords (recs.filter p) m = (monthRecords recs m).filter p := by
  simp only [monthRecords, List.filter_filter]
  exact List.filter_congr (fun a _ => by rw [Bool.and_comm])

theorem windowRecords_filter (month : Int) (lookback : Nat)
    (records : List ExpenseRecord) (p : ExpenseRecord → Bool) :
    windowRecords month lookback (records.filter p) =
      (windowRecords month lookback records).filter p := by
  simp only [windowRecords, List.filter_filter]
  exact List.filter_congr (fun a _ => by rw [Bool.and_comm])

theorem monthsWithData_filter_length_le (months : List Int)
    (recs : List ExpenseRecord) (p : ExpenseRecord → Bool) :
    (monthsWithData months (recs.filter p)).length ≤
      (monthsWithData months recs).length := by
  apply (List.monotone_filter_right months ?_).length_le
  intro m hm
  rw [monthRecords_filter] at hm
  cases hbase : monthRecords recs m with
  | nil => rw [hbase, List.filter_nil] at hm; simp at hm
  | cons a t => rfl

/-! Claims -/

/-- Claim C1: for every BudgetSuggestion produced by computeSuggestion on
any valid input, breakdown.needs + breakdown.wants + breakdown.savings
equals suggested_total within a 0.01 tolerance (in the exact-rational
model the sum is exactly the total). -/
theorem breakdown_sums_to_total (cfg : EngineConfig) (month : Int)
    (lookback : Nat) (records : List ExpenseRecord)
    (llm : Option (LLMProvider × Option TipResult)) (b : BudgetSuggestion)
    (h : computeSuggestion cfg month lookback records llm = .ok b) :
    b.breakdown.needs + b.breakdown.wants + b.breakdown.savings =
      b.suggested_total ∧
    |b.breakdown.needs + b.breakdown.wants + b.breakdown.savings -
        b.suggested_total| ≤ 1 / 100 := by
  obtain ⟨-, rfl⟩ := computeSuggestion_ok h
  have h1 : (buildSuggestion cfg month lookback records llm).breakdown.needs +
      (buildSuggestion cfg month lookback records llm).breakdown.wants +
      (buildSuggestion cfg month lookback records llm).breakdown.savings =
      (buildSuggestion cfg month lookback records llm).suggested_total := by
    show suggestedTotal cfg month lookback records / 2 +
        suggestedTotal cfg month lookback records * 3 / 10 +
        suggestedTotal cfg month lookback records / 5 =
      suggestedTotal cfg month lookback records
    ring
  refine ⟨h1, ?_⟩
  rw [h1, sub_self]
  norm_num

theorem breakdown_sums_to_total_witness :
    (buildSuggestion cfgEx 0 1 [] none).breakdown.needs +
        (buildSuggestion cfgEx 0 1 [] none).breakdown.wants +
        (buildSuggestion cfgEx 0 1 [] none).breakdown.savings =
      (buildSuggestion cfgEx 0 1 [] none).suggested_total ∧
    |(buildSuggestion cfgEx 0 1 [] none).breakdown.needs +
        (buildSuggestion cfgEx 0 1 [] none).breakdown.wants +
        (buildSuggestion cfgEx 0 1 [] none).breakdown.savings -
        (buildSuggestion cfgEx 0 1 [] none).suggested_total| ≤ 1 / 100 :=
  breakdown_sums_to_total cfgEx 0 1 [] none _ rfl

/-- Claim C4: a lookback window with zero expense records still yields a
fully-defined BudgetSuggestion: the configured default total, confidence
label no_data, empty category suggestions and no spending trend. -/
theorem empty_window_defaults (cfg : EngineConfig) (month : Int)
    (lookback : Nat) (records : List ExpenseRecord)
    (llm : Option (LLMProvider × Option TipResult))
    (hl : lookback ≠ 0)
    (hw : windowRecords month lookback records = []) :
    computeSuggestion cfg month lookback records llm =
      .ok (buildSuggestion cfg month lookback records llm) ∧
    (buildSuggestion cfg month lookback records llm).suggested_total =
      cfg.defaultTotal ∧
    (buildSuggestion cfg month lookback records llm).confidence.label =
      .no_data ∧
    (buildSuggestion cfg month lookback records llm).category_suggestions = [] ∧
    (buildSuggestion cfg month lookback records llm).spending_trend = none := by
  have hm : engineMonths month lookback records = [] := by
    rw [engineMonths, hw]
    exact monthsWithData_nil _
  refine ⟨by rw [computeSuggestion, if_neg hl], ?_, ?_, ?_, ?_⟩
  · show suggestedTotal cfg month lookback records = cfg.defaultTotal
    rw [suggestedTotal, hm]
    simp
  · show confidenceLabel (engineMonths month lookback records).length lookback =
      .no_data
    rw [hm]
    simp [confidenceLabel]
  · show (categoryIds (windowRecords month lookback records)).map _ = []
    rw [hw]
    simp [categoryIds]
  · show spendingTrendOf month lookback records = none
    rw [spendingTrendOf, hm]

theorem empty_window_defaults_witness :
    computeSuggestion cfgEx 0 1 [] none =
      .ok (buildSuggestion cfgEx 0 1 [] none) ∧
    (buildSuggestion cfgEx 0 1 [] none).suggested_total = cfgEx.defaultTotal ∧
    (buildSuggestion cfgEx 0 1 [] none).confidence.label = .no_data ∧
    (buildSuggestion cfgEx 0 1 [] none).category_suggestions = [] ∧
    (buildSuggestion cfgEx 0 1 [] none).spending_trend = none :=
  empty_window_defaults cfgEx 0 1 [] none (by decide) (by decide)

/-- Claim C6: an LLM key whose provider call fails never surfaces an
error: the whole response equals the keyless response, so the numeric
fields are untouched, tips and warnings are absent, and the method falls
back to heuristic (or heuristic_default on the no-data fallback). -/
theorem llm_failure_harmless :
    (∀ (cfg : EngineConfig) (month : Int) (lookback : Nat)
        (records : List ExpenseRecord) (p : LLMProvider),
        computeSuggestion cfg month lookback records (some (p, none)) =
          computeSuggestion cfg month lookback records none) ∧
    (∀ (cfg : EngineConfig) (month : Int) (lookback : Nat)
        (records : List ExpenseRecord) (p : LLMProvider) (b : BudgetSuggestion),
        computeSuggestion cfg month lookback records (some (p, none)) = .ok b →
        b.tips = none ∧ b.warnings = none ∧
          (b.method = .heuristic ∨ b.method = .heuristic_default)) := by
  constructor
  · intro cfg month lookback records p
    rfl
  · intro cfg month lookback records p b h
    obtain ⟨-, rfl⟩ := computeSuggestion_ok h
    refine ⟨rfl, rfl, ?_⟩
    have hme : (buildSuggestion cfg month lookback records (some (p, none))).method =
        methodOf (engineMonths month lookback records).isEmpty (some (p, none)) := rfl
    rw [hme]
    cases (engineMonths month lookback records).isEmpty
    · exact Or.inl rfl
    · exact Or.inr rfl

theorem llm_failure_harmless_witness :
    (buildSuggestion cfgEx 24313 2 recsEx (some (.gemini, none))).tips = none ∧
    (buildSuggestion cfgEx 24313 2 recsEx (some (.gemini, none))).warnings =
      none ∧
    ((buildSuggestion cfgEx 24313 2 recsEx (some (.gemini, none))).method =
        .heuristic ∨
      (buildSuggestion cfgEx 24313 2 recsEx (some (.gemini, none))).method =
        .heuristic_default) :=
  llm_failure_harmless.2 cfgEx 24313 2 recsEx .gemini _ rfl

/-- Claim C2: with at least one month of data the suggested total is the
average of the monthly totals over months with data; the section 8
scenario (totals 1000 and 1200 for month 2026-02, lookback 2) yields
total 1100 and breakdown 550/330/220; with no data at all the total is
the configured default and the method is heuristic_default. -/
theorem suggested_total_is_average :
    (∀ (cfg : EngineConfig) (month : Int) (lookback : Nat)
        (records : List ExpenseRecord)
        (llm : Option (LLMProvider × Option TipResult)) (b : BudgetSuggestion),
        computeSuggestion cfg month lookback records llm = .ok b →
        (b.data_range.months_with_data ≠ 0 →
          b.suggested_total =
            (b.monthly_totals.map Prod.snd).sum /
              (b.monthly_totals.length : ℚ)) ∧
        (b.data_range.months_with_data = 0 →
          b.suggested_total = cfg.defaultTotal ∧
            b.method = .heuristic_default)) ∧
    (computeSuggestion cfgEx 24313 2 recsEx none).map
        (fun b => (b.suggested_total, b.breakdown)) =
      .ok (1100, ⟨550, 330, 220⟩) := by
  constructor
  · intro cfg month lookback records llm b h
    obtain ⟨-, rfl⟩ := computeSuggestion_ok h
    constructor
    · intro hne
      have hne2 : engineMonths month lookback records ≠ [] := by
        intro hnil
        refine hne ?_
        show (engineMonths month lookback records).length = 0
        rw [hnil]
        rfl
      show suggestedTotal cfg month lookback records = _
      rw [suggestedTotal, if_neg (by simpa [List.isEmpty_iff] using hne2)]
      rfl
    · intro hz
      have hz2 : engineMonths month lookback records = [] :=
        List.length_eq_zero.mp hz
      constructor
      · show suggestedTotal cfg month lookback records = cfg.defaultTotal
        rw [suggestedTotal, hz2]
        rfl
      · show methodOf (engineMonths month lookback records).isEmpty llm =
          .heuristic_default
        rw [hz2]
        rcases llm with _ | ⟨p, _ | r⟩ <;> rfl
  · have hm : engineMonths 24313 2 recsEx = [24313, 24312] := by decide
    have hw : windowRecords 24313 2 recsEx = recsEx := by decide
    have h1 : monthTotal recsEx 24313 = 1200 := by
      norm_num [monthTotal, monthRecords, recsEx]
    have h2 : monthTotal recsEx 24312 = 1000 := by
      norm_num [monthTotal, monthRecords, recsEx]
    have hmt : monthlyTotals 24313 2 recsEx = [(24313, 1200), (24312, 1000)] := by
      rw [monthlyTotals, hm, hw]
      rw [List.map_cons, List.map_cons, List.map_nil, h1, h2]
    have ht : suggestedTotal cfgEx 24313 2 recsEx = 1100 := by
      rw [suggestedTotal, hm, hmt]
      norm_num
    have hb : computeSuggestion cfgEx 24313 2 recsEx none =
        .ok (buildSuggestion cfgEx 24313 2 recsEx none) := rfl
    rw [hb]
    show Except.ok ((buildSuggestion cfgEx 24313 2 recsEx none).suggested_total,
        (buildSuggestion cfgEx 24313 2 recsEx none).breakdown) = _
    have hst : (buildSuggestion cfgEx 24313 2 recsEx none).suggested_total =
        1100 := ht
    have hbk : (buildSuggestion cfgEx 24313 2 recsEx none).breakdown =
        ⟨550, 330, 220⟩ := by
      show splitBreakdown (suggestedTotal cfgEx 24313 2 recsEx) = _
      rw [ht, splitBreakdown]
      simp only [Breakdown.mk.injEq]
      norm_num
    rw [hst, hbk]

theorem suggested_total_is_average_witness :
    (buildSuggestion cfgEx 24313 2 recsEx none).suggested_total =
      ((buildSuggestion cfgEx 24313 2 recsEx none).monthly_totals.map
          Prod.snd).sum /
        ((buildSuggestion cfgEx 24313 2 recsEx none).monthly_totals.length : ℚ) :=
  ((suggested_total_is_average.1 cfgEx 24313 2 recsEx none _ rfl).1 (by decide))

/-- Claim C3: with at least 2 months of data and a positive prior total,
the spending trend carries change_pct = (recent - prior) / prior * 100,
with direction stable exactly when the absolute change is below 5 and
otherwise by sign; with fewer than 2 months of data the trend is
absent. -/
theorem spending_trend_rule :
    (∀ (cfg : EngineConfig) (month : Int) (lookback : Nat)
        (records : List ExpenseRecord)
        (llm : Option (LLMProvider × Option TipResult)) (b : BudgetSuggestion)
        (recent prior : Int) (rest : List Int),
        computeSuggestion cfg month lookback records llm = .ok b →
        engineMonths month lookback records = recent :: prior :: rest →
        0 < monthTotal (windowRecords month lookback records) prior →
        b.spending_trend =
          some ⟨trendDirection
              ((monthTotal (windowRecords month lookback records) recent -
                  monthTotal (windowRecords month lookback records) prior) /
                monthTotal (windowRecords month lookback records) prior * 100),
            (monthTotal (windowRecords month lookback records) recent -
                monthTotal (windowRecords month lookback records) prior) /
              monthTotal (windowRecords month lookback records) prior * 100⟩) ∧
    (∀ (cfg : EngineConfig) (month : Int) (lookback : Nat)
        (records : List ExpenseRecord)
        (llm : Option (LLMProvider × Option TipResult)) (b : BudgetSuggestion),
        computeSuggestion cfg month lookback records llm = .ok b →
        (engineMonths month lookback records).length < 2 →
        b.spending_trend = none) ∧
    (∀ c : ℚ,
        (trendDirection c = .stable ↔ |c| < 5) ∧
        (5 ≤ c → trendDirection c = .increasing) ∧
        (c ≤ -5 → trendDirection c = .decreasing)) := by
  refine ⟨?_, ?_, ?_⟩
  · intro cfg month lookback records llm b recent prior rest h hms hp
    obtain ⟨-, rfl⟩ := computeSuggestion_ok h
    show spendingTrendOf month lookback records = _
    simp only [spendingTrendOf, hms]
    rw [if_pos hp]
  · intro cfg month lookback records llm b h hlen
    obtain ⟨-, rfl⟩ := computeSuggestion_ok h
    show spendingTrendOf month lookback records = none
    rcases hms : engineMonths month lookback records with _ | ⟨a, _ | ⟨a2, t⟩⟩
    · simp only [spendingTrendOf, hms]
    · simp only [spendingTrendOf, hms]
    · exfalso
      rw [hms] at hlen
      simp only [List.length_cons] at hlen
      omega
  · intro c
    refine ⟨⟨?_, ?_⟩, ?_, ?_⟩
    · intro hs
      by_contra habs
      rw [trendDirection, if_neg habs] at hs
      split at hs <;> simp at hs
    · intro habs
      rw [trendDirection, if_pos habs]
    · intro h5
      have h0 : (0 : ℚ) < c := by linarith
      have habs : ¬ |c| < 5 := not_lt.mpr (le_trans h5 (le_abs_self c))
      rw [trendDirection, if_neg habs, if_pos h0]
    · intro h5
      have h0 : ¬ (0 : ℚ) < c := by linarith
      have habs : ¬ |c| < 5 :=
        not_lt.mpr (le_trans (by linarith : (5 : ℚ) ≤ -c) (neg_le_abs c))
      rw [trendDirection, if_neg habs, if_neg h0]

theorem spending_trend_rule_witness :
    (buildSuggestion cfgEx 24313 2 recsEx none).spending_trend =
      some ⟨trendDirection
          ((monthTotal (windowRecords 24313 2 recsEx) 24313 -
              monthTotal (windowRecords 24313 2 recsEx) 24312) /
            monthTotal (windowRecords 24313 2 recsEx) 24312 * 100),
        (monthTotal (windowRecords 24313 2 recsEx) 24313 -
            monthTotal (windowRecords 24313 2 recsEx) 24312) /
          monthTotal (windowRecords 24313 2 recsEx) 24312 * 100⟩ :=
  spending_trend_rule.1 cfgEx 24313 2 recsEx none _ 24313 24312 [] rfl
    (by decide)
    (by norm_num [monthTotal, monthRecords, windowRecords, recsEx])

/-- Confidence score is non-negative. -/
theorem confidenceScore_nonneg (wd req c : Nat) :
    0 ≤ confidenceScore wd req c := by
  rw [confidenceScore]
  positivity

/-- Confidence score is at most one when coverage cannot exceed the
months requested. -/
theorem confidenceScore_le_one (wd req c : Nat) (h : wd ≤ req) :
    confidenceScore wd req c ≤ 1 := by
  rw [confidenceScore]
  rcases Nat.eq_zero_or_pos req with h0 | hpos
  · subst h0
    have hw : wd = 0 := Nat.le_zero.mp h
    subst hw
    norm_num
  · have hreq : (0 : ℚ) < req := by exact_mod_cast hpos
    apply mul_le_one₀
    · rw [div_le_one hreq]
      exact_mod_cast h
    · positivity
    · rw [div_le_one (by positivity)]
      have : (0 : ℚ) ≤ c := by positivity
      linarith

/-- Confidence score is monotone in coverage and record count. -/
theorem confidenceScore_mono (wd wd2 req c c2 : Nat) (hw : wd ≤ wd2)
    (hc : c ≤ c2) : confidenceScore wd req c ≤ confidenceScore wd2 req c2 := by
  rw [confidenceScore, confidenceScore]
  have h1 : (wd : ℚ) / req ≤ (wd2 : ℚ) / req := by
    rcases Nat.eq_zero_or_pos req with h0 | hpos
    · subst h0
      norm_num
    · exact (div_le_div_iff_of_pos_right (by exact_mod_cast hpos)).mpr
        (by exact_mod_cast hw)
  have h2 : (c : ℚ) / ((c : ℚ) + 1) ≤ (c2 : ℚ) / ((c2 : ℚ) + 1) := by
    rw [div_le_div_iff₀ (by positivity) (by positivity)]
    have hcc : (c : ℚ) ≤ c2 := by exact_mod_cast hc
    nlinarith
  exact mul_le_mul h1 h2 (by positivity) (by positivity)

/-- Claim C5: the confidence score lies in [0,1], increases monotonically
with months_with_data and record count, and restricting a full-coverage
dataset to a subset of its months can only lower the score. -/
theorem confidence_monotone :
    (∀ (cfg : EngineConfig) (month : Int) (lookback : Nat)
        (records : List ExpenseRecord)
        (llm : Option (LLMProvider × Option TipResult)) (b : BudgetSuggestion),
        computeSuggestion cfg month lookback records llm = .ok b →
        0 ≤ b.confidence.score ∧ b.confidence.score ≤ 1) ∧
    (∀ wd wd2 req c c2 : Nat, wd ≤ wd2 → c ≤ c2 →
        confidenceScore wd req c ≤ confidenceScore wd2 req c2) ∧
    (∀ (cfg : EngineConfig) (month : Int) (lookback : Nat)
        (records : List ExpenseRecord) (S : List Int)
        (llm : Option (LLMProvider × Option TipResult))
        (b bSub : BudgetSuggestion),
        (∀ m ∈ windowMonths month lookback,
            monthRecords (windowRecords month lookback records) m ≠ []) →
        (∃ m ∈ windowMonths month lookback,
            monthRecords (windowRecords month lookback
              (records.filter (fun r => S.contains r.monthIdx))) m = []) →
        computeSuggestion cfg month lookback records llm = .ok b →
        computeSuggestion cfg month lookback
            (records.filter (fun r => S.contains r.monthIdx)) llm = .ok bSub →
        bSub.confidence.score ≤ b.confidence.score) := by
  refine ⟨?_, ?_, ?_⟩
  · intro cfg month lookback records llm b h
    obtain ⟨-, rfl⟩ := computeSuggestion_ok h
    exact ⟨confidenceScore_nonneg _ _ _,
      confidenceScore_le_one _ _ _ (engineMonths_length_le month lookback records)⟩
  · exact fun wd wd2 req c c2 hw hc => confidenceScore_mono wd wd2 req c c2 hw hc
  · intro cfg month lookback records S llm b bSub hfull hstrict hb hbs
    obtain ⟨-, rfl⟩ := computeSuggestion_ok hb
    obtain ⟨-, rfl⟩ := computeSuggestion_ok hbs
    show confidenceScore
        (engineMonths month lookback
          (records.filter (fun r => S.contains r.monthIdx))).length lookback
        (windowRecords month lookback
          (records.filter (fun r => S.contains r.monthIdx))).length ≤
      confidenceScore (engineMonths month lookback records).length lookback
        (windowRecords month lookback records).length
    apply confidenceScore_mono
    · rw [engineMonths, engineMonths, windowRecords_filter]
      exact monthsWithData_filter_length_le _ _ _
    · rw [windowRecords_filter]
      exact List.length_filter_le _ _

theorem confidence_monotone_witness :
    (buildSuggestion cfgEx 24313 2
        (recsEx.filter (fun r => ([24312] : List Int).contains r.monthIdx))
        none).confidence.score ≤
      (buildSuggestion cfgEx 24313 2 recsEx none).confidence.score :=
  confidence_monotone.2.2 cfgEx 24313 2 recsEx [24312] none _ _
    (by decide) (by decide) rfl rfl

/-- Claim C7 counterexample: the insights client method type rejects
gemini, and the analytics client method type accepts arbitrary strings,
so the two frontend types do not accept exactly the four spec values. -/
theorem method_type_counterexample :
    insightsMethodAccepts "gemini" = false ∧
    analyticsMethodAccepts "not-a-method" = true := by
  decide

/-- Claim C7 (amended): every engine response method is one of the four
spec values; the insights client type accepts exactly heuristic,
heuristic_default and openai, while the analytics client method union is
absorbed by its string member and accepts every string. -/
theorem method_vocabulary :
    (∀ (cfg : EngineConfig) (month : Int) (lookback : Nat)
        (records : List ExpenseRecord)
        (llm : Option (LLMProvider × Option TipResult)) (b : BudgetSuggestion),
        computeSuggestion cfg month lookback records llm = .ok b →
        methodString b.method ∈ specMethodValues) ∧
    (∀ s, insightsMethodAccepts s = true ↔ s ∈ insightsMethodValues) ∧
    (∀ s, analyticsMethodAccepts s = true) := by
  refine ⟨?_, ?_, ?_⟩
  · have hall : ∀ m : Method, methodString m ∈ specMethodValues := by
      intro m
      cases m <;> simp [methodString, specMethodValues]
    intro cfg month lookback records llm b h
    exact hall b.method
  · intro s
    rw [insightsMethodAccepts]
    exact List.elem_iff
  · intro s
    rfl

theorem method_vocabulary_witness :
    methodString (buildSuggestion cfgEx 0 1 [] none).method ∈ specMethodValues :=
  method_vocabulary.1 cfgEx 0 1 [] none _ rfl

/-- Claim C8 counterexample: a provided but empty month string is
dropped by both clients because JS truthiness discards it, so parameters
are not sent exactly when provided. -/
theorem request_counterexample :
    (some "" : Option String).isSome = true ∧
    (insightsGetBudgetSuggestion (some "") none).query = [] ∧
    (analyticsGetBudgetSuggestion none (some "") none).headers = [] := by
  refine ⟨rfl, rfl, rfl⟩

theorem mem_optParam (key v : String) (o : Option String) :
    (key, v) ∈ optParam key o ↔ o = some v ∧ v ≠ "" := by
  rcases o with _ | m
  · simp [optParam]
  · by_cases hm : m = ""
    · subst hm
      simp [optParam, strTruthy]
      exact fun h => h.symm
    · simp only [optParam, strTruthy, hm]
      rw [if_pos (by simp [hm])]
      simp only [List.mem_singleton, Prod.mk.injEq, true_and,
        Option.some.injEq]
      constructor
      · intro h
        subst h
        exact ⟨rfl, hm⟩
      · rintro ⟨h, -⟩
        exact h.symm

theorem optParam_keys (key2 : String) (o : Option String) :
    ∀ x ∈ optParam key2 o, x.1 = key2 := by
  intro x hx
  rcases o with _ | m
  · simp [optParam] at hx
  · simp only [optParam] at hx
    split at hx
    · simp at hx
      rw [hx]
    · simp at hx

theorem mem_optNatParam (key v : String) (o : Option Nat) :
    (key, v) ∈ optNatParam key o ↔ ∃ n, o = some n ∧ n ≠ 0 ∧ v = toString n := by
  rcases o with _ | n
  · simp [optNatParam]
  · by_cases hn : n = 0
    · subst hn
      simp [optNatParam]
    · simp only [optNatParam]
      rw [if_pos (by simpa using hn)]
      simp only [List.mem_singleton, Prod.mk.injEq, true_and,
        Option.some.injEq]
      constructor
      · intro h
        exact ⟨n, rfl, hn, h⟩
      · rintro ⟨n2, h2, -, hv⟩
        rw [hv, h2]

theorem optNatParam_keys (key2 : String) (o : Option Nat) :
    ∀ x ∈ optNatParam key2 o, x.1 = key2 := by
  intro x hx
  rcases o with _ | n
  · simp [optNatParam] at hx
  · simp only [optNatParam] at hx
    split at hx
    · simp at hx
      rw [hx]
    · simp at hx

/-- Membership in an append whose right half carries a different key
reduces to the left half. -/
theorem mem_append_other_key (key v : String) (A B : List (String × String))
    (hB : ∀ x ∈ B, x.1 ≠ key) : ((key, v) ∈ A ++ B) ↔ (key, v) ∈ A := by
  rw [List.mem_append]
  constructor
  · rintro (h | h)
    · exact h
    · exact absurd rfl (hB _ h)
  · exact Or.inl

/-- Claim C8 (amended): both clients call path
/insights/budget-suggestion; query parameters and headers are sent
exactly when the corresponding optional argument is provided with a
truthy value (a non-empty string, a non-zero months number). -/
theorem request_shape :
    (∀ (month : Option String) (months : Option Nat),
        (insightsGetBudgetSuggestion month months).path =
          "/insights/budget-suggestion" ∧
        (insightsGetBudgetSuggestion month months).headers = [] ∧
        (∀ v, ("month", v) ∈ (insightsGetBudgetSuggestion month months).query ↔
            month = some v ∧ v ≠ "") ∧
        (∀ v, ("months", v) ∈ (insightsGetBudgetSuggestion month months).query ↔
            ∃ n, months = some n ∧ n ≠ 0 ∧ v = toString n)) ∧
    (∀ (month geminiApiKey persona : Option String),
        (analyticsGetBudgetSuggestion month geminiApiKey persona).path =
          "/insights/budget-suggestion" ∧
        (∀ v, ("month", v) ∈
              (analyticsGetBudgetSuggestion month geminiApiKey persona).query ↔
            month = some v ∧ v ≠ "") ∧
        (∀ v, ("X-Gemini-Api-Key", v) ∈
              (analyticsGetBudgetSuggestion month geminiApiKey persona).headers ↔
            geminiApiKey = some v ∧ v ≠ "") ∧
        (∀ v, ("X-Insight-Persona", v) ∈
              (analyticsGetBudgetSuggestion month geminiApiKey persona).headers ↔
            persona = some v ∧ v ≠ "")) := by
  constructor
  · intro month months
    refine ⟨rfl, rfl, ?_, ?_⟩
    · intro v
      show ("month", v) ∈
          optParam "month" month ++ optNatParam "months" months ↔ _
      rw [mem_append_other_key _ _ _ _
          (fun x hx => by rw [optNatParam_keys _ _ x hx]; decide)]
      exact mem_optParam _ _ _
    · intro v
      show ("months", v) ∈
          optParam "month" month ++ optNatParam "months" months ↔ _
      rw [List.mem_append]
      constructor
      · rintro (h | h)
        · have hk := optParam_keys "month" month _ h
          simp at hk
        · exact (mem_optNatParam _ _ _).mp h
      · intro h
        exact Or.inr ((mem_optNatParam _ _ _).mpr h)
  · intro month geminiApiKey persona
    refine ⟨rfl, ?_, ?_, ?_⟩
    · intro v
      exact mem_optParam _ _ _
    · intro v
      show ("X-Gemini-Api-Key", v) ∈
          optParam "X-Gemini-Api-Key" geminiApiKey ++
            optParam "X-Insight-Persona" persona ↔ _
      rw [mem_append_other_key _ _ _ _
          (fun x hx => by rw [optParam_keys _ _ x hx]; decide)]
      exact mem_optParam _ _ _
    · intro v
      show ("X-Insight-Persona", v) ∈
          optParam "X-Gemini-Api-Key" geminiApiKey ++
            optParam "X-Insight-Persona" persona ↔ _
      rw [List.mem_append]
      constructor
      · rintro (h | h)
        · have hk := optParam_keys "X-Gemini-Api-Key" geminiApiKey _ h
          simp at hk
        · exact (mem_optParam _ _ _).mp h
      · intro h
        exact Or.inr ((mem_optParam _ _ _).mpr h)

theorem request_shape_witness :
    ("month", "2026-02") ∈
      (insightsGetBudgetSuggestion (some "2026-02") (some 6)).query :=
  ((request_shape.1 (some "2026-02") (some 6)).2.2.1 "2026-02").mpr
    ⟨rfl, by decide⟩

/-- Claim C9: formatMoney is total over the modelled inputs — a falsy
amount (NaN or 0) is coerced to 0, a currency code the formatter rejects
falls through to the plain CODE-space-toFixed(2) fallback instead of
throwing, an explicit non-empty code is uppercased, and an absent code
resolves to the stored currency or USD. -/
theorem formatMoney_total :
    (∀ (env : IntlEnv) (amount : JSNum) (code : Option String),
        env.validCurrency (resolveCurrency env code) = false →
        formatMoney env amount code =
          resolveCurrency env code ++ " " ++ jsToFixed2 (jsOrZero amount)) ∧
    (∀ (env : IntlEnv) (amount : JSNum) (code : Option String),
        env.validCurrency (resolveCurrency env code) = true →
        formatMoney env amount code =
          env.intlFormat (resolveCurrency env code) (jsOrZero amount)) ∧
    (∀ (env : IntlEnv) (code : Option String),
        formatMoney env .nan code = formatMoney env (.num 0) code) ∧
    (∀ (env : IntlEnv) (c : String), c ≠ "" →
        resolveCurrency env (some c) = jsToUpperStr c) ∧
    (∀ env : IntlEnv, env.storedCurrency = none →
        resolveCurrency env none = "USD") ∧
    (∀ (env : IntlEnv) (s : String), env.storedCurrency = some s → s ≠ "" →
        resolveCurrency env none = jsToUpperStr s) := by
  refine ⟨?_, ?_, ?_, ?_, ?_, ?_⟩
  · intro env amount code h
    rw [formatMoney, if_neg (by rw [h]; exact Bool.false_ne_true)]
  · intro env amount code h
    rw [formatMoney, if_pos h]
  · intro env code
    rfl
  · intro env c hc
    rw [resolveCurrency, strOr, if_pos (by simp [strTruthy, hc])]
  · intro env h
    rw [resolveCurrency, h]
    rfl
  · intro env s hs hne
    rw [resolveCurrency, hs]
    show jsToUpperStr (strOr none (strOr (some s) "USD")) = _
    rw [strOr, strOr, if_pos (by simp [strTruthy, hne])]

theorem formatMoney_total_witness :
    formatMoney envEx (.num 3) (some "usd") =
      resolveCurrency envEx (some "usd") ++ " " ++
        jsToFixed2 (jsOrZero (.num 3)) ∧
    resolveCurrency envEx none = jsToUpperStr "inr" :=
  ⟨formatMoney_total.1 envEx (.num 3) (some "usd") rfl,
    formatMoney_total.2.2.2.2.2 envEx "inr" rfl (by decide)⟩

/-- Claim C10 counterexample: the empty offsets input has no numeric
token, yet the code parses the single empty token to 0 and sends
offsets_days = [0] instead of an empty body. -/
theorem offsets_counterexample :
    claimedOffsets "" = [] ∧ parseOffsets "" = [0] ∧ sentBody "" = some [0] := by
  decide

/-- Claim C10 (amended): the offsets sent are exactly the comma-split
tokens whose JS Number parse is a finite value at least 0 — an empty or
whitespace token parses to 0 and is therefore kept as offset 0 — and the
body omits offsets_days exactly when that filtered list is empty; every
offset the claim admits is indeed sent. -/
theorem offsets_pipeline (input : String) :
    (∀ q ∈ parseOffsets input, 0 ≤ q) ∧
    (sentBody input = none ↔ parseOffsets input = []) ∧
    (∀ q ∈ parseOffsets input, ∃ tok ∈ offsetTokens input,
        jsNumber (jsStrTrim tok) = .num q) ∧
    (∀ q ∈ claimedOffsets input, q ∈ parseOffsets input) := by
  refine ⟨?_, ?_, ?_, ?_⟩
  · intro q hq
    rw [parseOffsets] at hq
    obtain ⟨v, hv, hfv⟩ := List.mem_filterMap.mp hq
    rcases v with _ | _ | _ | q2 <;> simp at hfv
    obtain ⟨h0, rfl⟩ := hfv
    exact h0
  · by_cases hnil : parseOffsets input = []
    · simp [sentBody, sentOffsetsArg, scheduleBody, hnil]
    · have hpos : 0 < (parseOffsets input).length := List.length_pos.mpr hnil
      simp only [sentBody, sentOffsetsArg, scheduleBody, if_pos hpos]
      simp [hnil]
  · intro q hq
    rw [parseOffsets] at hq
    obtain ⟨v, hv, hfv⟩ := List.mem_filterMap.mp hq
    obtain ⟨tok, htok, htv⟩ := List.mem_map.mp hv
    refine ⟨tok, htok, ?_⟩
    rw [htv]
    rcases v with _ | _ | _ | q2 <;> simp at hfv
    obtain ⟨-, rfl⟩ := hfv
    rfl
  · intro q hq
    rw [claimedOffsets] at hq
    obtain ⟨tok, htok, hf⟩ := List.mem_filterMap.mp hq
    split at hf
    · cases hf
    · rcases hj : jsNumber (jsStrTrim tok) with _ | _ | _ | q2 <;>
        rw [hj] at hf <;> simp at hf
      obtain ⟨h0, rfl⟩ := hf
      rw [parseOffsets]
      refine List.mem_filterMap.mpr
        ⟨.num q2, List.mem_map.mpr ⟨tok, htok, hj⟩, ?_⟩
      simp [h0]

theorem offsets_pipeline_witness :
    (sentBody "abc,-1" = none ↔ parseOffsets "abc,-1" = []) ∧
    (∃ tok ∈ offsetTokens "7,abc,-2", jsNumber (jsStrTrim tok) = .num 7) :=
  ⟨(offsets_pipeline "abc,-1").2.1,
    (offsets_pipeline "7,abc,-2").2.2.1 7 (by decide)⟩

end FinMind
